import Mathlib

/-!
Shallow embedding of the repository's single source file `src/lib.rs`, a Zed
editor extension that resolves a context-server identifier to a launch command.

The Rust code implements `zed::Extension` for a unit struct
`PlexMediaServerExtension`; its sole method `context_server_command` takes
`&mut self`, an `&zed::ContextServerId` (a newtype over `String`, accessed as
`id.0`) and an unused `&zed::Project`, and returns
`zed::Result<zed::Command> = Result<Command, String>`.

The embedding below models:
  * `zed::Command` as a record of executable, arguments and environment
    (`env: Default::default()` is the empty list of pairs);
  * `zed::ContextServerId` as a one-field structure (`val` is Rust's `.0`);
  * the `&mut self` receiver by explicit state passing: the function takes
    the extension value and returns it alongside the result — the Rust body
    never touches `self`, so the state is returned unchanged;
  * the unused, host-supplied `&zed::Project` as a value of an arbitrary
    type parameter, since the body never inspects it;
  * the `match id.0.as_str()` with one literal arm and a wildcard as an
    equality test on strings, and `format!("Unknown server: {}", id.0)` as
    string concatenation.
-/

namespace PlexMcp

/-- `zed::Command`: the launch descriptor returned on a successful match. -/
structure Command where
  command : String
  args : List String
  env : List (String × String)
deriving DecidableEq, Repr

/-- `zed::ContextServerId`: a newtype over `String`; `val` models Rust's `.0`. -/
structure ContextServerId where
  val : String
deriving DecidableEq, Repr

/-- The extension type `PlexMediaServerExtension`: a unit struct with no fields. -/
structure PlexMediaServerExtension where
deriving DecidableEq, Repr

/-- `PlexMediaServerExtension::context_server_command` from `src/lib.rs`
(lines 6–19).  State-passing embedding of the `&mut self` method: the first
component of the result is the extension state after the call, the second the
`Result<zed::Command, String>`.  The `Project` argument is an opaque value of
an arbitrary type, matching the ignored `_project: &zed::Project`. -/
def context_server_command {Project : Type} (ext : PlexMediaServerExtension)
    (id : ContextServerId) (_project : Project) :
    PlexMediaServerExtension × Except String Command :=
  (ext,
    if id.val = "plex-mcp" then
      Except.ok { command := "uv", args := ["run", "plex-mcp"], env := [] }
    else
      Except.error ("Unknown server: " ++ id.val))

/-- C1: resolving the identifier `plex-mcp` returns `Ok` with exactly the
descriptor whose executable is `uv`, whose arguments are `["run", "plex-mcp"]`
in that order, and whose environment is empty — in every extension state and
for every project context. -/
theorem c1_plex_mcp_descriptor {Project : Type} (ext : PlexMediaServerExtension)
    (p : Project) :
    (context_server_command ext ⟨"plex-mcp"⟩ p).2 =
      Except.ok { command := "uv", args := ["run", "plex-mcp"], env := [] } :=
  rfl

/-- C2: for every identifier other than `plex-mcp` (so in particular
`"nonexistent"`, `""`, and `"Plex-MCP"`), resolution returns an error whose
payload contains that exact identifier string (as the suffix after a fixed
prefix). -/
theorem c2_unknown_error_contains_id {Project : Type}
    (ext : PlexMediaServerExtension) (p : Project) (id : ContextServerId)
    (h : id.val ≠ "plex-mcp") :
    ∃ pre, (context_server_command ext id p).2 = Except.error (pre ++ id.val) := by
  refine ⟨"Unknown server: ", ?_⟩
  simp [context_server_command, h]

/-- Witness for C2 at the concrete unrecognized identifier `"nonexistent"`. -/
theorem c2_unknown_error_contains_id_witness :
    ContextServerId.val ⟨"nonexistent"⟩ ≠ "plex-mcp" ∧
    ∃ pre, (context_server_command ⟨⟩ ⟨"nonexistent"⟩ ()).2 =
      Except.error (pre ++ ContextServerId.val ⟨"nonexistent"⟩) :=
  ⟨by decide, c2_unknown_error_contains_id ⟨⟩ () ⟨"nonexistent"⟩ (by decide)⟩

/-- C3: resolution succeeds if and only if the identifier equals `plex-mcp`
under exact string equality; every other identifier yields the error result. -/
theorem c3_ok_iff_plex_mcp {Project : Type} (ext : PlexMediaServerExtension)
    (p : Project) (id : ContextServerId) :
    (∃ c, (context_server_command ext id p).2 = Except.ok c) ↔
      id.val = "plex-mcp" := by
  by_cases h : id.val = "plex-mcp" <;> simp [context_server_command, h]

/-- C4: resolution is deterministic and idempotent: any two invocations with
the same identifier, in any two extension states and with any two project
contexts, yield identical results (state and `Result` component alike). -/
theorem c4_deterministic {P Q : Type} (ext ext' : PlexMediaServerExtension)
    (p : P) (q : Q) (id : ContextServerId) :
    context_server_command ext id p = context_server_command ext' id q := by
  cases ext
  cases ext'
  rfl

/-- C5: the result does not depend on the project-context argument: for a
fixed extension state and identifier, any two project contexts (even of
different types) give the same result. -/
theorem c5_project_noninterference {P Q : Type} (ext : PlexMediaServerExtension)
    (p : P) (q : Q) (id : ContextServerId) :
    context_server_command ext id p = context_server_command ext id q :=
  rfl

/-- C6: resolution has no side effect on the extension state: for every
identifier (recognized or not) the state returned by the call equals the state
passed in. -/
theorem c6_state_unchanged {P : Type} (ext : PlexMediaServerExtension)
    (p : P) (id : ContextServerId) :
    (context_server_command ext id p).1 = ext :=
  rfl

/-- C7: every descriptor produced by a successful resolution has an empty
environment mapping. -/
theorem c7_env_empty {P : Type} (ext : PlexMediaServerExtension) (p : P)
    (id : ContextServerId) (d : Command)
    (h : (context_server_command ext id p).2 = Except.ok d) :
    d.env = [] := by
  by_cases hid : id.val = "plex-mcp"
  · simp [context_server_command, hid] at h
    simp [← h]
  · simp [context_server_command, hid] at h

/-- Witness for C7 at the concrete recognized identifier `"plex-mcp"`. -/
theorem c7_env_empty_witness :
    Command.env { command := "uv", args := ["run", "plex-mcp"], env := [] } = [] :=
  c7_env_empty PlexMediaServerExtension.mk () ⟨"plex-mcp"⟩
    { command := "uv", args := ["run", "plex-mcp"], env := [] } rfl

/-- C8: for the recognized identifier there is exactly one descriptor that
resolution produces (unique across all extension states and project contexts),
and every unrecognized identifier produces zero descriptors together with an
error. -/
theorem c8_unique_descriptor (id : ContextServerId) :
    (id.val = "plex-mcp" →
      ∃! d : Command, ∀ (P : Type) (ext : PlexMediaServerExtension) (p : P),
        (context_server_command ext id p).2 = Except.ok d) ∧
    (id.val ≠ "plex-mcp" →
      ∀ (P : Type) (ext : PlexMediaServerExtension) (p : P),
        ∃ e, (context_server_command ext id p).2 = Except.error e) := by
  constructor
  · intro h
    refine ⟨{ command := "uv", args := ["run", "plex-mcp"], env := [] },
      fun P ext p => by simp [context_server_command, h], ?_⟩
    intro d hd
    have hu := hd Unit ⟨⟩ ()
    simp [context_server_command, h] at hu
    simp [hu]
  · intro h P ext p
    exact ⟨"Unknown server: " ++ id.val, by simp [context_server_command, h]⟩

/-- C9: for every unrecognized identifier `s`, the error value is exactly the
string `"Unknown server: "` concatenated with `s`, with no other text. -/
theorem c9_error_exact_format {P : Type} (ext : PlexMediaServerExtension)
    (p : P) (id : ContextServerId) (h : id.val ≠ "plex-mcp") :
    (context_server_command ext id p).2 =
      Except.error ("Unknown server: " ++ id.val) := by
  simp [context_server_command, h]

/-- Witness for C9 at the concrete unrecognized identifier `""`. -/
theorem c9_error_exact_format_witness :
    (context_server_command ⟨⟩ ⟨""⟩ ()).2 =
      Except.error ("Unknown server: " ++ ContextServerId.val ⟨""⟩) :=
  c9_error_exact_format ⟨⟩ () ⟨""⟩ (by decide)

/-- C10: resolution is total: for every identifier string the function returns
either `Ok` with a descriptor or an error string; no third outcome exists. -/
theorem c10_total {P : Type} (ext : PlexMediaServerExtension) (p : P)
    (id : ContextServerId) :
    (∃ d, (context_server_command ext id p).2 = Except.ok d) ∨
    (∃ e, (context_server_command ext id p).2 = Except.error e) := by
  by_cases h : id.val = "plex-mcp"
  · exact Or.inl ⟨{ command := "uv", args := ["run", "plex-mcp"], env := [] },
      by simp [context_server_command, h]⟩
  · exact Or.inr ⟨"Unknown server: " ++ id.val,
      by simp [context_server_command, h]⟩

end PlexMcp
